import Mathlib

/-!
Verification of the HP MRI web application overlay pipeline.

The development shallowly embeds the plotting core of the repository:
the domain mapper (`calculateDomain`, in its four revisions), the grid
builder (`prepareGridData`), the trace builder (`processedEpsi`,
`createLineData`), the plot data assembly of `updatePlot`, and the voxel
picker (`handleVoxelSelect`). JavaScript numbers are modelled as exact
rationals; where finiteness of a JavaScript computation matters (division
by zero producing NaN or Infinity), a second model over `Option ℚ` tracks
non-finite values explicitly.
-/

namespace HPMRI

/-- A closed interval of the normalized plotting domain, the pair
`[low, high]` the code stores as a two-element array. -/
structure Interval where
  lo : ℚ
  hi : ℚ
  deriving Repr, DecidableEq

/-- The normalized plot domain `{x: [lo, hi], y: [lo, hi]}` returned by
the domain mapper. -/
structure Domain where
  x : Interval
  y : Interval
  deriving Repr, DecidableEq

/-- Domain mapper of PlotComponent version 1.2.1 (`calculateDomain` in
the unnamed source, lines 61-72): per axis,
`low = ((fid - epsi)/2 + shift*epsi/count)/fid` and
`high = low + epsi/fid`. Counts are the integer grid dimensions, cast
into the rationals where they divide. -/
def calculateDomain (lroFid lroEpsi plotShiftX : ℚ) (columns : ℕ)
    (lpeFid lpeEpsi plotShiftY : ℚ) (rows : ℕ) : Domain :=
  { x :=
      { lo := ((lroFid - lroEpsi) / 2 + plotShiftX * lroEpsi / columns) / lroFid
        hi := ((lroFid - lroEpsi) / 2 + plotShiftX * lroEpsi / columns) / lroFid
                + lroEpsi / lroFid }
    y :=
      { lo := ((lpeFid - lpeEpsi) / 2 + plotShiftY * lpeEpsi / rows) / lpeFid
        hi := ((lpeFid - lpeEpsi) / 2 + plotShiftY * lpeEpsi / rows) / lpeFid
                + lpeEpsi / lpeFid } }

/-- Domain computation of PlotComponent version 1.0.0: the inline object
literal at the top of `updatePlot` (PlotComponent.js lines 23-32). -/
def domainInline_v100 (lroFid lroEpsi : ℚ) (plotShift0 : ℚ) (columns : ℕ)
    (lpeFid lpeEpsi : ℚ) (plotShift1 : ℚ) (rows : ℕ) : Domain :=
  { x :=
      { lo := ((lroFid - lroEpsi) / 2 + plotShift0 * lroEpsi / columns) / lroFid
        hi := ((lroFid - lroEpsi) / 2 + plotShift0 * lroEpsi / columns) / lroFid
                + lroEpsi / lroFid }
    y :=
      { lo := ((lpeFid - lpeEpsi) / 2 + plotShift1 * lpeEpsi / rows) / lpeFid
        hi := ((lpeFid - lpeEpsi) / 2 + plotShift1 * lpeEpsi / rows) / lpeFid
                + lpeEpsi / lpeFid } }

/-- Domain mapper of PlotComponent version 1.1.0 (`calculateDomain`,
lines 72-83 of that revision). -/
def calculateDomain_v110 (lroFid lroEpsi plotShiftX : ℚ) (columns : ℕ)
    (lpeFid lpeEpsi plotShiftY : ℚ) (rows : ℕ) : Domain :=
  { x :=
      { lo := ((lroFid - lroEpsi) / 2 + plotShiftX * lroEpsi / columns) / lroFid
        hi := ((lroFid - lroEpsi) / 2 + plotShiftX * lroEpsi / columns) / lroFid
                + lroEpsi / lroFid }
    y :=
      { lo := ((lpeFid - lpeEpsi) / 2 + plotShiftY * lpeEpsi / rows) / lpeFid
        hi := ((lpeFid - lpeEpsi) / 2 + plotShiftY * lpeEpsi / rows) / lpeFid
                + lpeEpsi / lpeFid } }

/-- Domain mapper of PlotComponent version 1.2.2 (`calculateDomain`,
lines 232-243): same formula with the renamed parameters
longitudinalScale / longitudinalMeasurement / perpendicularScale /
perpendicularMeasurement. -/
def calculateDomain_v122 (longitudinalScale longitudinalMeasurement plotShiftX : ℚ)
    (columns : ℕ) (perpendicularScale perpendicularMeasurement plotShiftY : ℚ)
    (rows : ℕ) : Domain :=
  { x :=
      { lo := ((longitudinalScale - longitudinalMeasurement) / 2
                + plotShiftX * longitudinalMeasurement / columns) / longitudinalScale
        hi := ((longitudinalScale - longitudinalMeasurement) / 2
                + plotShiftX * longitudinalMeasurement / columns) / longitudinalScale
                + longitudinalMeasurement / longitudinalScale }
    y :=
      { lo := ((perpendicularScale - perpendicularMeasurement) / 2
                + plotShiftY * perpendicularMeasurement / rows) / perpendicularScale
        hi := ((perpendicularScale - perpendicularMeasurement) / 2
                + plotShiftY * perpendicularMeasurement / rows) / perpendicularScale
                + perpendicularMeasurement / perpendicularScale } }

/-- C1: for every scale > 0, measure, integer count > 0 and shift, each
axis interval produced by the domain mapper has width `high - low`
exactly `measure/scale`, independent of the shift: panning translates
the domain but never resizes it. -/
theorem calculateDomain_width (lroFid lroEpsi plotShiftX : ℚ) (columns : ℕ)
    (lpeFid lpeEpsi plotShiftY : ℚ) (rows : ℕ)
    (hxs : 0 < lroFid) (hys : 0 < lpeFid) (hc : 0 < columns) (hr : 0 < rows) :
    (calculateDomain lroFid lroEpsi plotShiftX columns
        lpeFid lpeEpsi plotShiftY rows).x.hi
      - (calculateDomain lroFid lroEpsi plotShiftX columns
        lpeFid lpeEpsi plotShiftY rows).x.lo = lroEpsi / lroFid
    ∧ (calculateDomain lroFid lroEpsi plotShiftX columns
        lpeFid lpeEpsi plotShiftY rows).y.hi
      - (calculateDomain lroFid lroEpsi plotShiftX columns
        lpeFid lpeEpsi plotShiftY rows).y.lo = lpeEpsi / lpeFid := by
  constructor <;> simp [calculateDomain]

/-- Witness for C1 at scale 40, measure 20, shift 5 and 3, count 8:
both widths are exactly 20/40. -/
theorem calculateDomain_width_witness :
    (0 : ℚ) < 40 ∧ (0 : ℚ) < 40 ∧ 0 < 8 ∧ 0 < 8
    ∧ ((calculateDomain 40 20 5 8 40 20 3 8).x.hi
        - (calculateDomain 40 20 5 8 40 20 3 8).x.lo = 20 / 40
      ∧ (calculateDomain 40 20 5 8 40 20 3 8).y.hi
        - (calculateDomain 40 20 5 8 40 20 3 8).y.lo = 20 / 40) :=
  ⟨by norm_num, by norm_num, by norm_num, by norm_num,
    calculateDomain_width 40 20 5 8 40 20 3 8
      (by norm_num) (by norm_num) (by norm_num) (by norm_num)⟩

/-- C8: the domain mapper is linear in the pan shift: at shift `s + 1`
both x bounds equal the bounds at shift `s` translated by
`measure / (count * scale)`, and the y interval is unchanged. -/
theorem calculateDomain_shift_linear (lroFid lroEpsi s : ℚ) (columns : ℕ)
    (lpeFid lpeEpsi plotShiftY : ℚ) (rows : ℕ)
    (hxs : 0 < lroFid) (hc : 0 < columns) :
    (calculateDomain lroFid lroEpsi (s + 1) columns
        lpeFid lpeEpsi plotShiftY rows).x.lo
      = (calculateDomain lroFid lroEpsi s columns
        lpeFid lpeEpsi plotShiftY rows).x.lo + lroEpsi / (columns * lroFid)
    ∧ (calculateDomain lroFid lroEpsi (s + 1) columns
        lpeFid lpeEpsi plotShiftY rows).x.hi
      = (calculateDomain lroFid lroEpsi s columns
        lpeFid lpeEpsi plotShiftY rows).x.hi + lroEpsi / (columns * lroFid)
    ∧ (calculateDomain lroFid lroEpsi (s + 1) columns
        lpeFid lpeEpsi plotShiftY rows).y
      = (calculateDomain lroFid lroEpsi s columns
        lpeFid lpeEpsi plotShiftY rows).y := by
  have hc0 : ((columns : ℚ)) ≠ 0 := by positivity
  have hx0 : lroFid ≠ 0 := ne_of_gt hxs
  refine ⟨?_, ?_, ?_⟩ <;> simp only [calculateDomain] <;> field_simp <;> ring

/-- Witness for C8: with columns = 8, measure = 20, scale = 40, panning
right by one unit shifts the x low bound by exactly 20/(8*40) = 0.0625. -/
theorem calculateDomain_shift_linear_witness :
    (0 : ℚ) < 40 ∧ 0 < 8
    ∧ (calculateDomain 40 20 (0 + 1) 8 40 20 0 8).x.lo
      = (calculateDomain 40 20 0 8 40 20 0 8).x.lo + 0.0625 := by
  refine ⟨by norm_num, by norm_num, ?_⟩
  have h := (calculateDomain_shift_linear 40 20 0 8 40 20 0 8
    (by norm_num) (by norm_num)).1
  rw [h]
  norm_num

/-- C9: the domain mapper at scale 40, measure 20, zero shift and count 8
on both axes returns exactly the domain {x: [0.25, 0.75], y: [0.25, 0.75]}. -/
theorem calculateDomain_example :
    calculateDomain 40 20 0 8 40 20 0 8
      = { x := { lo := 1/4, hi := 3/4 }, y := { lo := 1/4, hi := 3/4 } } := by
  simp only [calculateDomain]
  norm_num

/-- C10: all four revisions of the domain computation (the inline
expression of version 1.0.0, `calculateDomain` of 1.1.0, 1.2.1 and 1.2.2)
compute the same function on every input tuple. -/
theorem calculateDomain_revisions_agree (a b c : ℚ) (n : ℕ) (d e f : ℚ) (m : ℕ) :
    domainInline_v100 a b c n d e f m = calculateDomain a b c n d e f m
    ∧ calculateDomain_v110 a b c n d e f m = calculateDomain a b c n d e f m
    ∧ calculateDomain_v122 a b c n d e f m = calculateDomain a b c n d e f m :=
  ⟨rfl, rfl, rfl⟩

/-- One grid line segment pushed by `prepareGridData`: the geometric
fields `x0, y0, x1, y1` (the constant styling fields are omitted). -/
structure Segment where
  x0 : ℚ
  y0 : ℚ
  x1 : ℚ
  y1 : ℚ
  deriving Repr, DecidableEq

/-- The segment pushed at loop index `i` of the first loop of
`prepareGridData` (the vertical lines, `i = 0 .. columns`):
`x0 = x1 = domain.x[0] + (i/columns)*(domain.x[1]-domain.x[0])`, spanning
`y` from `domain.y[0]` to `domain.y[1]`. -/
def vertSegment (domain : Domain) (columns : ℕ) (i : ℕ) : Segment :=
  { x0 := domain.x.lo + ((i : ℚ) / (columns : ℚ)) * (domain.x.hi - domain.x.lo)
    y0 := domain.y.lo
    x1 := domain.x.lo + ((i : ℚ) / (columns : ℚ)) * (domain.x.hi - domain.x.lo)
    y1 := domain.y.hi }

/-- The segment pushed at loop index `j` of the second loop of
`prepareGridData` (the horizontal lines, `j = 0 .. rows`). -/
def horizSegment (domain : Domain) (rows : ℕ) (j : ℕ) : Segment :=
  { x0 := domain.x.lo
    y0 := domain.y.lo + ((j : ℚ) / (rows : ℚ)) * (domain.y.hi - domain.y.lo)
    x1 := domain.x.hi
    y1 := domain.y.lo + ((j : ℚ) / (rows : ℚ)) * (domain.y.hi - domain.y.lo) }

/-- Grid builder of PlotComponent 1.1.0 / 1.2.1 / 1.2.2
(`prepareGridData`): first the loop `for i in 0..columns` pushing
vertical segments, then the loop `for j in 0..rows` pushing horizontal
segments. -/
def prepareGridData (domain : Domain) (columns rows : ℕ) : List Segment :=
  (List.range (columns + 1)).map (vertSegment domain columns)
    ++ (List.range (rows + 1)).map (horizSegment domain rows)

/-- C3: for every domain and integers columns ≥ 1, rows ≥ 1 the grid
builder returns exactly (columns+1) + (rows+1) segments; entry `i` of the
list is the `i`-th vertical line and entry `columns+1+j` the `j`-th
horizontal line; consecutive lines are evenly spaced by width/count; and
the lines at index 0 and index count of each direction lie exactly on the
domain boundary. -/
theorem prepareGridData_spec (domain : Domain) (columns rows : ℕ)
    (hc : 1 ≤ columns) (hr : 1 ≤ rows) :
    (prepareGridData domain columns rows).length = (columns + 1) + (rows + 1)
    ∧ (∀ i, i ≤ columns →
        (prepareGridData domain columns rows).get? i
          = some (vertSegment domain columns i))
    ∧ (∀ j, j ≤ rows →
        (prepareGridData domain columns rows).get? (columns + 1 + j)
          = some (horizSegment domain rows j))
    ∧ (∀ i, i < columns →
        (vertSegment domain columns (i + 1)).x0
          = (vertSegment domain columns i).x0
            + (domain.x.hi - domain.x.lo) / columns)
    ∧ (∀ j, j < rows →
        (horizSegment domain rows (j + 1)).y0
          = (horizSegment domain rows j).y0
            + (domain.y.hi - domain.y.lo) / rows)
    ∧ (vertSegment domain columns 0).x0 = domain.x.lo
    ∧ (vertSegment domain columns columns).x0 = domain.x.hi
    ∧ (horizSegment domain rows 0).y0 = domain.y.lo
    ∧ (horizSegment domain rows rows).y0 = domain.y.hi := by
  have hc0 : ((columns : ℚ)) ≠ 0 := Nat.cast_ne_zero.mpr (by omega)
  have hr0 : ((rows : ℚ)) ≠ 0 := Nat.cast_ne_zero.mpr (by omega)
  refine ⟨?_, ?_, ?_, ?_, ?_, ?_, ?_, ?_, ?_⟩
  · simp [prepareGridData]
  · intro i hi
    have hlt : i < (columns + 1) := Nat.lt_succ_of_le hi
    rw [prepareGridData, List.get?_append (by simpa using hlt),
      List.get?_map, List.get?_range hlt]
    rfl
  · intro j hj
    have hlt : j < (rows + 1) := Nat.lt_succ_of_le hj
    rw [prepareGridData, List.get?_append_right (by simp)]
    simp only [List.length_map, List.length_range]
    have : columns + 1 + j - (columns + 1) = j := by omega
    rw [this, List.get?_map, List.get?_range hlt]
    rfl
  · intro i hi
    simp only [vertSegment]
    push_cast
    field_simp
    ring
  · intro j hj
    simp only [horizSegment]
    push_cast
    field_simp
    ring
  · simp [vertSegment]
  · simp [vertSegment, div_self hc0]
  · simp [horizSegment]
  · simp [horizSegment, div_self hr0]

/-- Witness for C3 at the domain {x: [1/4, 3/4], y: [1/4, 3/4]} with
columns = 2, rows = 3. -/
theorem prepareGridData_spec_witness :
    1 ≤ 2 ∧ 1 ≤ 3
    ∧ ((prepareGridData
          { x := { lo := 1/4, hi := 3/4 }, y := { lo := 1/4, hi := 3/4 } } 2 3).length
        = (2 + 1) + (3 + 1)
      ∧ (∀ i, i ≤ 2 →
          (prepareGridData
            { x := { lo := 1/4, hi := 3/4 }, y := { lo := 1/4, hi := 3/4 } } 2 3).get? i
            = some (vertSegment
              { x := { lo := 1/4, hi := 3/4 }, y := { lo := 1/4, hi := 3/4 } } 2 i))
      ∧ (∀ j, j ≤ 3 →
          (prepareGridData
            { x := { lo := 1/4, hi := 3/4 }, y := { lo := 1/4, hi := 3/4 } } 2 3).get?
              (2 + 1 + j)
            = some (horizSegment
              { x := { lo := 1/4, hi := 3/4 }, y := { lo := 1/4, hi := 3/4 } } 3 j))
      ∧ (∀ i, i < 2 →
          (vertSegment
            { x := { lo := 1/4, hi := 3/4 }, y := { lo := 1/4, hi := 3/4 } } 2 (i + 1)).x0
            = (vertSegment
              { x := { lo := 1/4, hi := 3/4 }, y := { lo := 1/4, hi := 3/4 } } 2 i).x0
              + (((3:ℚ)/4) - 1/4) / 2)
      ∧ (∀ j, j < 3 →
          (horizSegment
            { x := { lo := 1/4, hi := 3/4 }, y := { lo := 1/4, hi := 3/4 } } 3 (j + 1)).y0
            = (horizSegment
              { x := { lo := 1/4, hi := 3/4 }, y := { lo := 1/4, hi := 3/4 } } 3 j).y0
              + (((3:ℚ)/4) - 1/4) / 3)
      ∧ (vertSegment
          { x := { lo := 1/4, hi := 3/4 }, y := { lo := 1/4, hi := 3/4 } } 2 0).x0 = 1/4
      ∧ (vertSegment
          { x := { lo := 1/4, hi := 3/4 }, y := { lo := 1/4, hi := 3/4 } } 2 2).x0 = 3/4
      ∧ (horizSegment
          { x := { lo := 1/4, hi := 3/4 }, y := { lo := 1/4, hi := 3/4 } } 3 0).y0 = 1/4
      ∧ (horizSegment
          { x := { lo := 1/4, hi := 3/4 }, y := { lo := 1/4, hi := 3/4 } } 3 3).y0 = 3/4) :=
  ⟨by norm_num, by norm_num,
    prepareGridData_spec
      { x := { lo := 1/4, hi := 3/4 }, y := { lo := 1/4, hi := 3/4 } } 2 3
      (by norm_num) (by norm_num)⟩

/-- Data filtering step of `updatePlot` in PlotComponent 1.2.1
(line 31): `epsi.map(value => (value < 0.01 || value > 9.99) ? null : value)`.
A `null` entry is modelled as `none`. -/
def processedEpsi (epsi : List ℚ) : List (Option ℚ) :=
  epsi.map (fun value => if value < 0.01 ∨ value > 9.99 then none else some value)

/-- Data filtering step of `updatePlot` in PlotComponent 1.1.0
(line 42): the same map with thresholds 0.1 and 9.9. -/
def processedEpsi_v110 (epsi : List ℚ) : List (Option ℚ) :=
  epsi.map (fun value => if value < 0.1 ∨ value > 9.9 then none else some value)

/-- The scatter trace object built by `createLineData`: its x data, its
(gap-marked) y data, and the `connectgaps` flag; constant styling fields
are omitted. -/
structure LineData where
  x : List ℚ
  y : List (Option ℚ)
  connectgaps : Bool
  deriving Repr, DecidableEq

/-- Trace builder `createLineData(xEpsi, processedEpsi)` of
PlotComponent 1.1.0 / 1.2.1 / 1.2.2: a lines-mode scatter with
`connectgaps: false`. -/
def createLineData (xEpsi : List ℚ) (processed : List (Option ℚ)) : LineData :=
  { x := xEpsi, y := processed, connectgaps := false }

/-- Counterexample to C4 as stated: the sample −1 has magnitude 1, which
is neither below the lower epsilon 0.01 nor above the upper epsilon 9.99,
yet the code replaces it with the gap marker, because the comparison is
on the signed value, not the magnitude. -/
theorem processedEpsi_magnitude_counterexample :
    processedEpsi [(-1 : ℚ)] = [none]
    ∧ ¬ (|(-1 : ℚ)| < 0.01 ∨ |(-1 : ℚ)| > 9.99) := by
  constructor
  · simp only [processedEpsi, List.map]
    norm_num
  · norm_num

/-- C4 (amended): the trace builder replaces exactly those samples whose
signed value is below the lower epsilon or above the upper epsilon with
the gap marker `none` (in 1.2.1 the thresholds are 0.01 / 9.99, in 1.1.0
they are 0.1 / 9.9), it leaves every other sample unchanged at its
position, the output has the same length and order as the input, and the
built trace never bridges across a gap (`connectgaps` is false). -/
theorem processedEpsi_spec (epsi xEpsi : List ℚ) :
    (processedEpsi epsi).length = epsi.length
    ∧ (∀ i, ∀ h : i < epsi.length,
        (processedEpsi epsi).get? i
          = some (if epsi.get ⟨i, h⟩ < 0.01 ∨ epsi.get ⟨i, h⟩ > 9.99
              then none else some (epsi.get ⟨i, h⟩)))
    ∧ (processedEpsi_v110 epsi).length = epsi.length
    ∧ (∀ i, ∀ h : i < epsi.length,
        (processedEpsi_v110 epsi).get? i
          = some (if epsi.get ⟨i, h⟩ < 0.1 ∨ epsi.get ⟨i, h⟩ > 9.9
              then none else some (epsi.get ⟨i, h⟩)))
    ∧ (createLineData xEpsi (processedEpsi epsi)).connectgaps = false := by
  refine ⟨by simp [processedEpsi], ?_, by simp [processedEpsi_v110], ?_, rfl⟩
  · intro i h
    simp only [processedEpsi, List.get?_map, List.get?_eq_get h]
    rfl
  · intro i h
    simp only [processedEpsi_v110, List.get?_map, List.get?_eq_get h]
    rfl

/-- An element of the `plotData` array handed to the plotting surface:
either one grid line segment or the spectral trace. -/
inductive PlotElem where
  | grid (s : Segment)
  | trace (l : LineData)
  deriving Repr, DecidableEq

/-- Discriminator for grid elements of the plot data. -/
def PlotElem.isGrid : PlotElem → Bool
  | .grid _ => true
  | .trace _ => false

/-- Discriminator for trace elements of the plot data. -/
def PlotElem.isTrace : PlotElem → Bool
  | .grid _ => false
  | .trace _ => true

/-- Plot data assembly of `updatePlot` in PlotComponent 1.2.1
(lines 30-33): the domain, filtered data and grid are computed, and the
render set is `showEpsi ? [...gridData, createLineData(...)] : gridData`. -/
def updatePlotData (xEpsi epsi : List ℚ) (columns : ℕ)
    (rows : ℕ) (lroFid lpeFid lroEpsi lpeEpsi : ℚ)
    (plotShiftX plotShiftY : ℚ) (showEpsi : Bool) : List PlotElem :=
  let domain := calculateDomain lroFid lroEpsi plotShiftX columns
    lpeFid lpeEpsi plotShiftY rows
  let processed := processedEpsi epsi
  let gridData := prepareGridData domain columns rows
  if showEpsi then
    gridData.map PlotElem.grid ++ [PlotElem.trace (createLineData xEpsi processed)]
  else
    gridData.map PlotElem.grid

/-- C7: with the visibility flag off the render set contains no trace,
only the grid segments, and its grid segment count equals the count with
the flag on; with the flag on the render set is the grid segments plus
exactly one trace. -/
theorem updatePlotData_visibility (xEpsi epsi : List ℚ) (columns : ℕ)
    (rows : ℕ) (lroFid lpeFid lroEpsi lpeEpsi : ℚ) (plotShiftX plotShiftY : ℚ) :
    (updatePlotData xEpsi epsi columns rows lroFid lpeFid lroEpsi lpeEpsi
        plotShiftX plotShiftY false).countP PlotElem.isTrace = 0
    ∧ updatePlotData xEpsi epsi columns rows lroFid lpeFid lroEpsi lpeEpsi
        plotShiftX plotShiftY false
      = (prepareGridData
          (calculateDomain lroFid lroEpsi plotShiftX columns
            lpeFid lpeEpsi plotShiftY rows) columns rows).map PlotElem.grid
    ∧ (updatePlotData xEpsi epsi columns rows lroFid lpeFid lroEpsi lpeEpsi
        plotShiftX plotShiftY false).countP PlotElem.isGrid
      = (updatePlotData xEpsi epsi columns rows lroFid lpeFid lroEpsi lpeEpsi
        plotShiftX plotShiftY true).countP PlotElem.isGrid
    ∧ (updatePlotData xEpsi epsi columns rows lroFid lpeFid lroEpsi lpeEpsi
        plotShiftX plotShiftY true).countP PlotElem.isTrace = 1
    ∧ updatePlotData xEpsi epsi columns rows lroFid lpeFid lroEpsi lpeEpsi
        plotShiftX plotShiftY true
      = (prepareGridData
          (calculateDomain lroFid lroEpsi plotShiftX columns
            lpeFid lpeEpsi plotShiftY rows) columns rows).map PlotElem.grid
        ++ [PlotElem.trace (createLineData xEpsi (processedEpsi epsi))] := by
  refine ⟨?_, rfl, ?_, ?_, rfl⟩ <;>
    simp [updatePlotData, List.countP_append, List.countP_map,
      Function.comp, PlotElem.isGrid, PlotElem.isTrace, List.countP_eq_zero]

/-- JavaScript addition at the level of finiteness: `none` stands for a
non-finite number (NaN or ±Infinity); a non-finite operand makes the sum
non-finite. -/
def jsAdd : Option ℚ → Option ℚ → Option ℚ
  | some a, some b => some (a + b)
  | _, _ => none

/-- JavaScript subtraction at the level of finiteness. -/
def jsSub : Option ℚ → Option ℚ → Option ℚ
  | some a, some b => some (a - b)
  | _, _ => none

/-- JavaScript multiplication at the level of finiteness. -/
def jsMul : Option ℚ → Option ℚ → Option ℚ
  | some a, some b => some (a * b)
  | _, _ => none

/-- JavaScript division at the level of finiteness: dividing by zero
yields a non-finite number (0/0 is NaN, otherwise ±Infinity), and a
non-finite operand keeps the result non-finite. This model is faithful
for the domain mapper, whose divisors are always raw finite inputs. -/
def jsDiv : Option ℚ → Option ℚ → Option ℚ
  | some a, some b => if b = 0 then none else some (a / b)
  | _, _ => none

/-- An axis interval whose bounds may be non-finite. -/
structure JsInterval where
  lo : Option ℚ
  hi : Option ℚ
  deriving Repr, DecidableEq

/-- A plot domain whose bounds may be non-finite. -/
structure JsDomain where
  x : JsInterval
  y : JsInterval
  deriving Repr, DecidableEq

/-- Domain mapper of PlotComponent 1.2.1 under the finiteness-tracking
number model: the exact expression tree of `calculateDomain`, with no
guard of any divisor — the code contains no conditional at all. -/
def calculateDomainNum (lroFid lroEpsi plotShiftX : ℚ) (columns : ℕ)
    (lpeFid lpeEpsi plotShiftY : ℚ) (rows : ℕ) : JsDomain :=
  let xlo := jsDiv
    (jsAdd (jsDiv (jsSub (some lroFid) (some lroEpsi)) (some 2))
      (jsDiv (jsMul (some plotShiftX) (some lroEpsi)) (some (columns : ℚ))))
    (some lroFid)
  let ylo := jsDiv
    (jsAdd (jsDiv (jsSub (some lpeFid) (some lpeEpsi)) (some 2))
      (jsDiv (jsMul (some plotShiftY) (some lpeEpsi)) (some (rows : ℚ))))
    (some lpeFid)
  { x := { lo := xlo, hi := jsAdd xlo (jsDiv (some lroEpsi) (some lroFid)) }
    y := { lo := ylo, hi := jsAdd ylo (jsDiv (some lpeEpsi) (some lpeFid)) } }

/-- The sentinel domain [0,1]×[0,1] that the spec says the mapper should
fall back to on a division by zero. -/
def sentinelDomain : JsDomain :=
  { x := { lo := some 0, hi := some 1 }, y := { lo := some 0, hi := some 1 } }

/-- Dividing by a zero divisor is non-finite whatever the numerator is. -/
theorem jsDiv_zero_right (n : Option ℚ) : jsDiv n (some 0) = none := by
  cases n <;> simp [jsDiv]

/-- Adding a non-finite number on the right stays non-finite. -/
theorem jsAdd_none_right (n : Option ℚ) : jsAdd n none = none := by
  cases n <;> rfl

/-- Dividing a non-finite numerator stays non-finite. -/
theorem jsDiv_none_left (n : Option ℚ) : jsDiv none n = none := by
  cases n <;> rfl

/-- Evaluation rule of `jsSub` on finite operands. -/
theorem jsSub_some_some (a b : ℚ) : jsSub (some a) (some b) = some (a - b) := rfl

/-- Evaluation rule of `jsMul` on finite operands. -/
theorem jsMul_some_some (a b : ℚ) : jsMul (some a) (some b) = some (a * b) := rfl

/-- Evaluation rule of `jsAdd` on finite operands. -/
theorem jsAdd_some_some (a b : ℚ) : jsAdd (some a) (some b) = some (a + b) := rfl

/-- Evaluation rule of `jsDiv` on finite operands. -/
theorem jsDiv_some_some (a b : ℚ) :
    jsDiv (some a) (some b) = if b = 0 then none else some (a / b) := rfl

/-- Counterexample to C2 as stated: at columns = 0 (scales positive, a
direct division by zero) the domain mapper neither fails fast nor
returns the sentinel domain [0,1]×[0,1]; the non-finite value reaches
the returned domain. -/
theorem calculateDomainNum_counterexample :
    (calculateDomainNum 40 20 0 0 40 20 0 8).x.lo = none
    ∧ calculateDomainNum 40 20 0 0 40 20 0 8 ≠ sentinelDomain := by
  constructor
  · simp [calculateDomainNum, jsDiv, jsAdd, jsSub, jsMul]
  · intro h
    have := congrArg (fun d => d.x.lo) h
    simp [calculateDomainNum, sentinelDomain, jsDiv, jsAdd, jsSub, jsMul] at this

/-- C2 (amended): the domain mapper has no division-by-zero guard: when
columns = 0, rows = 0, or either scale is 0, the division produces a
non-finite value that propagates into the returned domain (a low bound
of the affected axis is non-finite); the code neither fails fast nor
returns the sentinel domain. -/
theorem calculateDomainNum_propagates (lroFid lroEpsi plotShiftX : ℚ)
    (columns : ℕ) (lpeFid lpeEpsi plotShiftY : ℚ) (rows : ℕ)
    (h : columns = 0 ∨ rows = 0 ∨ lroFid = 0 ∨ lpeFid = 0) :
    (calculateDomainNum lroFid lroEpsi plotShiftX columns
        lpeFid lpeEpsi plotShiftY rows).x.lo = none
    ∨ (calculateDomainNum lroFid lroEpsi plotShiftX columns
        lpeFid lpeEpsi plotShiftY rows).y.lo = none := by
  rcases h with h | h | h | h
  · left
    simp [calculateDomainNum, h, jsSub_some_some, jsMul_some_some,
      jsDiv_some_some, jsDiv_zero_right, jsAdd_none_right, jsDiv_none_left]
  · right
    simp [calculateDomainNum, h, jsSub_some_some, jsMul_some_some,
      jsDiv_some_some, jsDiv_zero_right, jsAdd_none_right, jsDiv_none_left]
  · left
    simp [calculateDomainNum, h, jsDiv_zero_right]
  · right
    simp [calculateDomainNum, h, jsDiv_zero_right]

/-- Witness for the amended C2 at columns = 0. -/
theorem calculateDomainNum_propagates_witness :
    ((0 : ℕ) = 0 ∨ (8 : ℕ) = 0 ∨ (40 : ℚ) = 0 ∨ (40 : ℚ) = 0)
    ∧ ((calculateDomainNum 40 20 0 0 40 20 0 8).x.lo = none
      ∨ (calculateDomainNum 40 20 0 0 40 20 0 8).y.lo = none) :=
  ⟨Or.inl rfl, calculateDomainNum_propagates 40 20 0 0 40 20 0 8 (Or.inl rfl)⟩

/-- One voxel recorded by the picker: the adjusted click position inside
the plot and the derived column and row indices. -/
structure Voxel where
  x : ℚ
  y : ℚ
  column : ℤ
  row : ℤ
  deriving Repr, DecidableEq

/-- The two selection groups of the picker. -/
structure SelectionState where
  groupA : List Voxel
  groupB : List Voxel
  deriving Repr, DecidableEq

/-- Voxel picker `handleVoxelSelect` of HomePage 1.2.1 / 1.2.2: adjusts
the client click position by the container top-left and the calibration
offsets, accepts only clicks inside the calibrated sub-rectangle, derives
column and row with the scale-offset factors and Math.floor, and appends
the voxel to the active group; otherwise the state is returned
unchanged. The local constants xInsidePlot = clientX − rect.left −
offsetSelectX, yInsidePlot = clientY − rect.top − offsetSelectY,
scaleX = columns / rect.width * scaleOffsetX and
scaleY = rows / rect.height * scaleOffsetY of the source are inlined. -/
def handleVoxelSelect (selecting : Bool) (clientX clientY : ℚ)
    (plotRectLeft plotRectTop plotRectWidth plotRectHeight : ℚ)
    (offsetSelectX offsetSelectY scaleOffsetX scaleOffsetY : ℚ)
    (columns rows : ℚ) (selectedGroup : String)
    (s : SelectionState) : SelectionState :=
  if ¬ selecting then s
  else
    if 0 ≤ clientX - plotRectLeft - offsetSelectX
        ∧ clientX - plotRectLeft - offsetSelectX
            ≤ plotRectWidth - offsetSelectX - 450
        ∧ 0 ≤ clientY - plotRectTop - offsetSelectY
        ∧ clientY - plotRectTop - offsetSelectY
            ≤ plotRectHeight - offsetSelectY - 370 then
      if selectedGroup = "A" then
        { s with groupA := s.groupA ++
            [{ x := clientX - plotRectLeft - offsetSelectX
               y := clientY - plotRectTop - offsetSelectY
               column := ⌊(clientX - plotRectLeft - offsetSelectX)
                  * (columns / plotRectWidth * scaleOffsetX)⌋
               row := ⌊(clientY - plotRectTop - offsetSelectY)
                  * (rows / plotRectHeight * scaleOffsetY)⌋ }] }
      else
        { s with groupB := s.groupB ++
            [{ x := clientX - plotRectLeft - offsetSelectX
               y := clientY - plotRectTop - offsetSelectY
               column := ⌊(clientX - plotRectLeft - offsetSelectX)
                  * (columns / plotRectWidth * scaleOffsetX)⌋
               row := ⌊(clientY - plotRectTop - offsetSelectY)
                  * (rows / plotRectHeight * scaleOffsetY)⌋ }] }
    else s

/-- C5: a click whose adjusted coordinates fall outside the calibrated
sub-rectangle [0, width − offsetSelectX − 450] × [0, height −
offsetSelectY − 370] yields no voxel: the picker returns with both
selection groups unchanged. -/
theorem handleVoxelSelect_rejects_outside (selecting : Bool)
    (clientX clientY plotRectLeft plotRectTop plotRectWidth plotRectHeight : ℚ)
    (offsetSelectX offsetSelectY scaleOffsetX scaleOffsetY : ℚ)
    (columns rows : ℚ) (selectedGroup : String) (s : SelectionState)
    (h : clientX - plotRectLeft - offsetSelectX < 0
      ∨ plotRectWidth - offsetSelectX - 450 < clientX - plotRectLeft - offsetSelectX
      ∨ clientY - plotRectTop - offsetSelectY < 0
      ∨ plotRectHeight - offsetSelectY - 370 < clientY - plotRectTop - offsetSelectY) :
    handleVoxelSelect selecting clientX clientY plotRectLeft plotRectTop
      plotRectWidth plotRectHeight offsetSelectX offsetSelectY
      scaleOffsetX scaleOffsetY columns rows selectedGroup s = s := by
  have hC : ¬ (0 ≤ clientX - plotRectLeft - offsetSelectX
      ∧ clientX - plotRectLeft - offsetSelectX ≤ plotRectWidth - offsetSelectX - 450
      ∧ 0 ≤ clientY - plotRectTop - offsetSelectY
      ∧ clientY - plotRectTop - offsetSelectY ≤ plotRectHeight - offsetSelectY - 370) := by
    rintro ⟨h1, h2, h3, h4⟩
    rcases h with h | h | h | h <;> linarith
  simp only [handleVoxelSelect]
  rw [if_neg hC]
  simp

/-- Witness for C5: with the container at (0,0), size 800×600 and the
calibrated offsets (−263, −98), a click at clientX = 1000 adjusts to
x = 1263, beyond the bound 800 + 263 − 450 = 613, and the state with one
voxel already in group A is returned unchanged. -/
theorem handleVoxelSelect_rejects_outside_witness :
    ((1000 : ℚ) - 0 - (-263) < 0
      ∨ (800 : ℚ) - (-263) - 450 < 1000 - 0 - (-263)
      ∨ (50 : ℚ) - 0 - (-98) < 0
      ∨ (600 : ℚ) - (-98) - 370 < 50 - 0 - (-98))
    ∧ handleVoxelSelect true 1000 50 0 0 800 600 (-263) (-98) 1.335 1.875
        16 12 "A" { groupA := [{ x := 1, y := 2, column := 0, row := 0 }], groupB := [] }
      = { groupA := [{ x := 1, y := 2, column := 0, row := 0 }], groupB := [] } :=
  ⟨Or.inr (Or.inl (by norm_num)),
    handleVoxelSelect_rejects_outside true 1000 50 0 0 800 600 (-263) (-98)
      1.335 1.875 16 12 "A"
      { groupA := [{ x := 1, y := 2, column := 0, row := 0 }], groupB := [] }
      (Or.inr (Or.inl (by norm_num)))⟩

/-- Outcome of a dataset-index change event: the value the state setter
schedules, and the index actually interpolated into the fetch URL. -/
structure DatasetChange where
  newStateValue : ℤ
  requestedIndex : ℤ
  deriving Repr, DecidableEq

/-- Handler `handleEpsiChange` of HomePage 1.2.1 (line 54):
`setEpsiValue(newEpsiValue)` schedules the state update, but
`sendEpsiValueToBackend(epsiValue)` reads the closure variable
`epsiValue`, which still holds the value from before the change (a React
state update is not visible until the next render), so the issued
request uses the previous index. -/
def handleEpsiChange (epsiValue newEpsiValue : ℤ) : DatasetChange :=
  { newStateValue := newEpsiValue, requestedIndex := epsiValue }

/-- Handler `handleDatasetChange` of HomePage 1.2.2 (lines 420-423):
`sendDatasetToBackend(newDatasetIndex)` uses the freshly selected
index. -/
def handleDatasetChange (newDatasetIndex : ℤ) : DatasetChange :=
  { newStateValue := newDatasetIndex, requestedIndex := newDatasetIndex }

/-- C6 at the failing input: in HomePage 1.2.1, with the stored index 3
and the user selecting 5, the handler schedules state 5 but issues the
request for the stale index 3; the 1.2.2 handler requests the new
index 5 as the claim demands. -/
theorem handleEpsiChange_requests_stale :
    (handleEpsiChange 3 5).requestedIndex = 3
    ∧ (handleEpsiChange 3 5).newStateValue = 5
    ∧ (handleEpsiChange 3 5).requestedIndex ≠ 5
    ∧ (handleDatasetChange 5).requestedIndex = 5 := by
  refine ⟨rfl, rfl, ?_, rfl⟩
  decide

end HPMRI
